import Mathlib

/-!
Shallow embedding of the response-normalization engine of the `WebUIClient`
class (the `_extract_response` / `_extract_sources` / `_parse_source_field` /
`_parse_openwebui_sources` / `_extract_sources_from_functions` /
`_deduplicate_sources` methods), together with proofs of the specification
claims about it.

JSON values (the decoded bodies the client receives) are modelled by the
inductive type `Json`; numbers are rationals.  Python dictionaries are
association lists in insertion order; lookup takes the first matching key,
which coincides with Python dictionaries since their keys are unique.
Fallible Python operations (subscripting, attribute access, membership
tests on non-containers) are modelled in an explicit `Except PyErr` monad;
every `try`/`except` block of the source becomes a total Lean function that
pattern-matches on the `Except` result of its body.
-/

set_option autoImplicit false

attribute [local semireducible] Rat.add Rat.sub Rat.mul Rat.inv

namespace WebUI

/-- A JSON value, as produced by decoding an HTTP response body. -/
inductive Json where
  | null
  | bool (b : Bool)
  | num (q : Rat)
  | str (s : String)
  | arr (xs : List Json)
  | obj (kvs : List (String × Json))

/-- The Python exception classes that the modelled operations can raise.
Which class is raised never influences control flow in the source (every
handler catches bare `Exception`), only that one is raised. -/
inductive PyErr where
  | typeError
  | keyError
  | indexError
  | attributeError
  | valueError
deriving DecidableEq

/-- Explicit bind for `Except PyErr`: sequencing of fallible Python
statements, propagating the first raised exception. -/
def ebind {α β : Type} : Except PyErr α → (α → Except PyErr β) → Except PyErr β
  | .error e, _ => .error e
  | .ok a, f => f a

@[simp] theorem ebind_ok {α β : Type} (a : α) (f : α → Except PyErr β) :
    ebind (.ok a) f = f a := rfl

@[simp] theorem ebind_error {α β : Type} (e : PyErr) (f : α → Except PyErr β) :
    ebind (.error e) f = .error e := rfl

/-- Python truthiness of a JSON value: `None`, `False`, `0`, `""`, `[]`,
`{}` are falsy, everything else is truthy. -/
def Json.truthy : Json → Bool
  | .null => false
  | .bool b => b
  | .num q => decide (q ≠ 0)
  | .str s => decide (s ≠ "")
  | .arr xs => !xs.isEmpty
  | .obj kvs => !kvs.isEmpty

/-- Python `a or b` on JSON values: `a` if truthy, else `b`. -/
def pyOr (a b : Json) : Json := if a.truthy then a else b

/-- Substring test on character lists: does `needle` occur contiguously
inside the second list? -/
def containsSub (needle : List Char) : List Char → Bool
  | [] => needle.isEmpty
  | c :: rest => List.isPrefixOf needle (c :: rest) || containsSub needle rest

/-- Python `k in v` for a string `k`: key membership for dicts, element
membership for lists (a string compares equal only to an equal string),
substring test for strings, `TypeError` for non-containers. -/
def pyIn (k : String) : Json → Except PyErr Bool
  | .obj kvs => .ok (List.lookup k kvs).isSome
  | .arr xs => .ok (xs.any fun x => match x with | .str s => s == k | _ => false)
  | .str t => .ok (containsSub k.toList t.toList)
  | _ => .error .typeError

/-- Python `v[k]` for a string key `k`: dict lookup (`KeyError` when the
key is absent), `TypeError` on lists, strings and non-containers. -/
def getKey (v : Json) (k : String) : Except PyErr Json :=
  match v with
  | .obj kvs =>
    match List.lookup k kvs with
    | some x => .ok x
    | none => .error .keyError
  | _ => .error .typeError

/-- Python `v[i]` for an integer index `i ≥ 0`: list indexing
(`IndexError` past the end), string indexing (a one-character string),
`KeyError` on dicts (decoded JSON dicts have only string keys),
`TypeError` otherwise. -/
def getIdx (v : Json) (i : Nat) : Except PyErr Json :=
  match v with
  | .arr xs =>
    match xs.get? i with
    | some x => .ok x
    | none => .error .indexError
  | .str s =>
    match s.toList.get? i with
    | some c => .ok (.str (String.mk [c]))
    | none => .error .indexError
  | .obj _ => .error .keyError
  | _ => .error .typeError

/-- Python `v.get(k, dflt)`: total on dicts, `AttributeError` on every
other value. -/
def dictGet (v : Json) (k : String) (dflt : Json) : Except PyErr Json :=
  match v with
  | .obj kvs => .ok ((List.lookup k kvs).getD dflt)
  | _ => .error .attributeError

/-- Total `get` for a value already known to be a dict (returns the
default on non-dicts); used only where the source has already
`isinstance`-checked the value. -/
def objGet (v : Json) (k : String) (dflt : Json) : Json :=
  match v with
  | .obj kvs => (List.lookup k kvs).getD dflt
  | _ => dflt

/-- Strip leading and trailing whitespace characters from a character
list (the character-level content of Python's `str.strip()`). -/
def stripChars (l : List Char) : List Char :=
  ((l.dropWhile Char.isWhitespace).reverse.dropWhile Char.isWhitespace).reverse

/-- Python `s.strip()` on a string. -/
def pyStrip (s : String) : String := (stripChars s.toList).asString

/-- Python `v.strip()` on a JSON value: strips strings, raises
`AttributeError` on every other value. -/
def stripJ : Json → Except PyErr String
  | .str s => .ok (pyStrip s)
  | _ => .error .attributeError

/-- Rendering of a JSON number, modelling Python's `str` on the decoded
number.  Integers render exactly as Python ints do; for non-integral
values the `num/den` form stands in for Python's decimal float notation
(no claim depends on the concrete digits of a non-integral rendering). -/
def numStr (q : Rat) : String :=
  if q.den = 1 then toString q.num else toString q.num ++ "/" ++ toString q.den

mutual

/-- Python `repr` of a decoded JSON value, as used inside `str` of a
container (string escaping inside quotes is elided; no claim depends on
escaped characters). -/
def pyRepr : Json → String
  | .null => "None"
  | .bool true => "True"
  | .bool false => "False"
  | .num q => numStr q
  | .str s => "'" ++ s ++ "'"
  | .arr xs => "[" ++ pyReprList xs ++ "]"
  | .obj kvs => "\x7b" ++ pyReprKVs kvs ++ "\x7d"

/-- Comma-joined `repr`s of list elements. -/
def pyReprList : List Json → String
  | [] => ""
  | [x] => pyRepr x
  | x :: y :: xs => pyRepr x ++ ", " ++ pyReprList (y :: xs)

/-- Comma-joined `'key': repr(value)` entries of a dict. -/
def pyReprKVs : List (String × Json) → String
  | [] => ""
  | [(k, v)] => "'" ++ k ++ "': " ++ pyRepr v
  | (k, v) :: p :: kvs => "'" ++ k ++ "': " ++ pyRepr v ++ ", " ++ pyReprKVs (p :: kvs)

end

/-- Python `str` of a decoded JSON value: the string itself for strings,
`repr`-style rendering for containers and scalars. -/
def pyStr : Json → String
  | .str s => s
  | v => pyRepr v

/-- Iterating a JSON value with a Python `for` loop: lists yield their
elements, dicts yield their keys (as strings), strings yield their
characters as one-character strings, everything else raises
`TypeError`. -/
def pyIter : Json → Except PyErr (List Json)
  | .arr xs => .ok xs
  | .obj kvs => .ok (kvs.map fun kv => .str kv.1)
  | .str s => .ok (s.toList.map fun c => .str (String.mk [c]))
  | _ => .error .typeError

/-- Model of Python's per-process string hash, used only through
`str(hash(str(source)))` as a last-resort deduplication key.  Any
deterministic function is as faithful as possible here: Python's hash is
only deterministic within one process, and the specification accepts
collisions between distinct contentless records. -/
def strHash (s : String) : Nat :=
  s.toList.foldl (fun a c => (a * 31 + c.toNat) % 1000000007) 7

/-- `str(hash(str(source)))`: decimal rendering of the modelled hash. -/
def hashKey (s : String) : String := toString (strHash s)

/-! ### `_parse_source_field` (Dockerfile lines 254-307) -/

/-- `item.get('url', '') or item.get('link', '') or item.get('source', '')`. -/
def resolvedUrl (kvs : List (String × Json)) : Json :=
  pyOr ((List.lookup "url" kvs).getD (.str ""))
    (pyOr ((List.lookup "link" kvs).getD (.str ""))
      ((List.lookup "source" kvs).getD (.str "")))

/-- `item.get('snippet', '') or item.get('content', '') or item.get('text', '')`. -/
def resolvedSnippet (kvs : List (String × Json)) : Json :=
  pyOr ((List.lookup "snippet" kvs).getD (.str ""))
    (pyOr ((List.lookup "content" kvs).getD (.str ""))
      ((List.lookup "text" kvs).getD (.str "")))

/-- `item.get('score', 0) or item.get('relevance', 0)`. -/
def resolvedScore (kvs : List (String × Json)) : Json :=
  pyOr ((List.lookup "score" kvs).getD (.num 0)) ((List.lookup "relevance" kvs).getD (.num 0))

/-- The record built from an object-shaped source item (lines 267-272 and
286-291), with the field-alias resolution rules. -/
def genericRecordOfDict (kvs : List (String × Json)) : Json :=
  Json.obj [("title", (List.lookup "title" kvs).getD (.str "")),
            ("url", resolvedUrl kvs),
            ("snippet", resolvedSnippet kvs),
            ("score", resolvedScore kvs)]

/-- The record built from a bare URL string (lines 277-282 and 297-302). -/
def urlOnlyRecord (s : String) : Json :=
  Json.obj [("url", .str s), ("title", .str ""), ("snippet", .str ""), ("score", .num 0)]

/-- Admission check for an object-shaped record (lines 273 and 292):
`if source['url'] or source['title']`. -/
def keepGeneric (source : Json) : Bool :=
  (objGet source "url" Json.null).truthy || (objGet source "title" Json.null).truthy

/-- The list branch of `_parse_source_field` (lines 263-282): dict items
become mapped records subject to the admission check, string items become
bare URL records unconditionally, other items are skipped. -/
def parseItems : List Json → List Json
  | [] => []
  | .obj kvs :: rest =>
    let source := genericRecordOfDict kvs
    if keepGeneric source then source :: parseItems rest else parseItems rest
  | .str s :: rest => urlOnlyRecord s :: parseItems rest
  | _ :: rest => parseItems rest

/-- `_parse_source_field` (lines 254-307).  Total: nothing in its body can
raise on a decoded JSON input (its `except` handler is unreachable).
A falsy input returns no sources (line 258); a lone string is kept only
when it looks like a URL (line 296). -/
def parse_source_field (source_field : Json) : List Json :=
  if !source_field.truthy then []
  else
    match source_field with
    | .arr items => parseItems items
    | .obj kvs =>
      let source := genericRecordOfDict kvs
      if keepGeneric source then [source] else []
    | .str s =>
      if s.startsWith "http" || s.startsWith "www" then [urlOnlyRecord s] else []
    | _ => []

/-! ### `_parse_openwebui_sources` (Dockerfile lines 309-369) -/

/-- `if not isinstance(v, list): v = [v] if v else []` (lines 325-326,
330-331, 335-336): normalize a field to a list. -/
def toPyList (v : Json) : List Json :=
  match v with
  | .arr xs => xs
  | _ => if v.truthy then [v] else []

/-- `metadata_list[i] if i < len(metadata_list) else {}` (line 340). -/
def selMeta (metadata_list : List Json) (i : Nat) : Json :=
  if h : i < metadata_list.length then metadata_list.get ⟨i, h⟩ else Json.obj []

/-- `distances[i] if i < len(distances) else 0` (line 341). -/
def selDist (distances : List Json) (i : Nat) : Json :=
  if h : i < distances.length then distances.get ⟨i, h⟩ else Json.num 0

/-- `1 - distance if distance else 0` (line 354): a falsy distance
(absent, `0`) yields score `0`; a truthy one is subtracted from 1
(`TypeError` when it is not a number; `True` behaves as 1). -/
def scoreOf (distance : Json) : Except PyErr Json :=
  if distance.truthy then
    match distance with
    | .num q => .ok (.num (1 - q))
    | .bool b => .ok (.num (1 - (if b then 1 else 0)))
    | _ => .error .typeError
  else .ok (.num 0)

/-- `str(doc_text)[:300] + "..." if len(str(doc_text)) > 300 else
str(doc_text)` (line 353). -/
def snippetOf (doc_text : Json) : String :=
  let s := pyStr doc_text
  if s.length > 300 then s.take 300 ++ "..." else s

/-- One iteration of the per-document loop (lines 339-364): metadata
field extraction (raising `AttributeError` when the paired metadata is
not a dict), record construction, and the admission check
`if parsed_source['title'] or parsed_source['snippet'] or
parsed_source['url']`. -/
def processDoc (collection_id collection_type doc_text metadata distance : Json) :
    Except PyErr (Option Json) :=
  ebind (dictGet metadata "title" (.str "")) fun t1 =>
  ebind (dictGet metadata "ti" (.str "")) fun t2 =>
  ebind (dictGet metadata "name" (.str "")) fun t3 =>
  ebind (dictGet metadata "author" (.str "")) fun a1 =>
  ebind (dictGet metadata "au" (.str "")) fun a2 =>
  ebind (dictGet metadata "url" (.str "")) fun u1 =>
  ebind (dictGet metadata "hdl" (.str "")) fun u2 =>
  ebind (dictGet metadata "page" Json.null) fun pg =>
  let title := pyOr t1 (pyOr t2 t3)
  let author := pyOr a1 a2
  let source_url := pyOr u1 u2
  let page_info := if pg.truthy then "Page " ++ pyStr pg else ""
  ebind (scoreOf distance) fun score =>
  let parsed_source := Json.obj
    [("title", title), ("url", source_url), ("snippet", .str (snippetOf doc_text)),
     ("score", score), ("author", author), ("page", .str page_info),
     ("collection_id", collection_id), ("collection_type", collection_type),
     ("metadata", metadata)]
  if title.truthy || (Json.str (snippetOf doc_text)).truthy || source_url.truthy then
    .ok (some parsed_source)
  else .ok none

/-- Collection info of one source group (lines 319-321):
`source_info = source_item.get('source', {})`, then
`source_info.get('id', '') if source_info else ''` and the same for
`type` (`AttributeError` when `source_info` is truthy but not a dict). -/
def groupPrelude (kvs : List (String × Json)) : Except PyErr (Json × Json) :=
  let source_info := (List.lookup "source" kvs).getD (Json.obj [])
  ebind (if source_info.truthy then dictGet source_info "id" (.str "") else .ok (.str "")) fun cid =>
  ebind (if source_info.truthy then dictGet source_info "type" (.str "") else .ok (.str "")) fun ctype =>
  .ok (cid, ctype)

/-- The per-group document loop, returning the records appended before
any raised exception together with that exception. -/
def docsLoop (collection_id collection_type : Json) (metadata_list distances : List Json) :
    List Json → Nat → List Json × Option PyErr
  | [], _ => ([], none)
  | doc_text :: rest, i =>
    match processDoc collection_id collection_type doc_text
        (selMeta metadata_list i) (selDist distances i) with
    | .ok (some rec) =>
      let (rs, e) := docsLoop collection_id collection_type metadata_list distances rest (i + 1)
      (rec :: rs, e)
    | .ok none => docsLoop collection_id collection_type metadata_list distances rest (i + 1)
    | .error e => ([], some e)

/-- The group loop of `_parse_openwebui_sources` (lines 314-364):
non-dict groups are skipped (line 315-316); an exception stops the loop
and the method's own handler returns what was collected so far. -/
def groupsLoop : List Json → List Json
  | [] => []
  | .obj kvs :: rest =>
    (match groupPrelude kvs with
     | .error _ => []
     | .ok (cid, ctype) =>
       let documents := toPyList ((List.lookup "document" kvs).getD (.arr []))
       let metadata_list := toPyList ((List.lookup "metadata" kvs).getD (.arr []))
       let distances := toPyList ((List.lookup "distances" kvs).getD (.arr []))
       match docsLoop cid ctype metadata_list distances documents 0 with
       | (rs, none) => rs ++ groupsLoop rest
       | (rs, some _) => rs)
  | _ :: rest => groupsLoop rest

/-- `_parse_openwebui_sources` (lines 309-369).  Total: its handler
returns the partially collected records on any exception.  Iterating a
dict or string yields only non-dict items, all skipped; iterating a
non-iterable raises `TypeError`, caught by the handler — an empty result
either way. -/
def parse_openwebui_sources (sources_data : Json) : List Json :=
  match sources_data with
  | .arr items => groupsLoop items
  | _ => []

/-! ### `json.loads`

The Python standard-library JSON decoder, used by
`_extract_sources_from_functions` on string-valued `arguments`.  It is a
library collaborator of the client, modelled by a small recursive-descent
parser.  `valueError` stands for `json.JSONDecodeError`.  String escape
handling is simplified to the common escapes, and the recursion is bounded
by a fuel larger than the input length (which bounds the nesting depth of
any JSON text); no claim depends on the decoder beyond it being a total
function that fails on malformed text. -/

/-- Drop leading JSON whitespace. -/
def skipWs : List Char → List Char
  | c :: rest =>
    if c = ' ' ∨ c = '\t' ∨ c = '\n' ∨ c = '\r' then skipWs rest else c :: rest
  | [] => []

/-- Scan a JSON string body up to its closing quote, resolving the common
escapes. -/
def parseStrChars : List Char → Except PyErr (List Char × List Char)
  | [] => .error .valueError
  | '"' :: rest => .ok ([], rest)
  | '\\' :: c :: rest =>
    ebind (parseStrChars rest) fun sr =>
      .ok ((if c = 'n' then '\n' else if c = 't' then '\t' else c) :: sr.1, sr.2)
  | c :: rest => ebind (parseStrChars rest) fun sr => .ok (c :: sr.1, sr.2)

/-- Take a maximal run of decimal digits. -/
def takeDigits : List Char → List Char × List Char
  | c :: rest =>
    if c.isDigit then
      let (ds, r) := takeDigits rest
      (c :: ds, r)
    else ([], c :: rest)
  | [] => ([], [])

/-- Value of a digit run. -/
def digitsVal (ds : List Char) : Nat := ds.foldl (fun a c => a * 10 + (c.toNat - 48)) 0

/-- Parse a JSON number (sign, integer part, optional fraction, optional
exponent). -/
def parseNum (cs : List Char) : Except PyErr (Json × List Char) :=
  let (neg, cs1) := match cs with | '-' :: r => (true, r) | _ => (false, cs)
  let (ds, cs2) := takeDigits cs1
  if ds.isEmpty then .error .valueError
  else
    let ip : Rat := (digitsVal ds : Nat)
    let (fr, cs3) : Rat × List Char :=
      match cs2 with
      | '.' :: r =>
        let (fd, r2) := takeDigits r
        ((digitsVal fd : Nat) / ((10 : Rat) ^ fd.length), r2)
      | _ => (0, cs2)
    let (ex, cs4) : Int × List Char :=
      match cs3 with
      | 'e' :: r | 'E' :: r =>
        (match r with
         | '-' :: r2 => let (ed, r3) := takeDigits r2; (-(digitsVal ed : Int), r3)
         | '+' :: r2 => let (ed, r3) := takeDigits r2; ((digitsVal ed : Int), r3)
         | _ => let (ed, r3) := takeDigits r; ((digitsVal ed : Int), r3))
      | _ => (0, cs3)
    let mag : Rat := (ip + fr) * (10 : Rat) ^ ex
    .ok (.num (if neg then -mag else mag), cs4)

mutual

/-- Parse one JSON value. -/
def parseValue : Nat → List Char → Except PyErr (Json × List Char)
  | 0, _ => .error .valueError
  | fuel + 1, cs =>
    match skipWs cs with
    | [] => .error .valueError
    | 'n' :: 'u' :: 'l' :: 'l' :: rest => .ok (.null, rest)
    | 't' :: 'r' :: 'u' :: 'e' :: rest => .ok (.bool true, rest)
    | 'f' :: 'a' :: 'l' :: 's' :: 'e' :: rest => .ok (.bool false, rest)
    | '"' :: rest => ebind (parseStrChars rest) fun sr => .ok (.str sr.1.asString, sr.2)
    | '[' :: rest =>
      (match skipWs rest with
       | ']' :: r2 => .ok (.arr [], r2)
       | r2 => ebind (parseArrItems fuel r2) fun ar => .ok (.arr ar.1, ar.2))
    | '\x7b' :: rest =>
      (match skipWs rest with
       | '\x7d' :: r2 => .ok (.obj [], r2)
       | r2 => ebind (parseObjItems fuel r2) fun br => .ok (.obj br.1, br.2))
    | c :: rest =>
      if c.isDigit ∨ c = '-' then parseNum (c :: rest) else .error .valueError

/-- Parse the comma-separated items of a non-empty JSON array, up to and
including the closing bracket. -/
def parseArrItems : Nat → List Char → Except PyErr (List Json × List Char)
  | 0, _ => .error .valueError
  | fuel + 1, cs =>
    ebind (parseValue fuel cs) fun vr =>
    match skipWs vr.2 with
    | ',' :: r2 => ebind (parseArrItems fuel r2) fun ar => .ok (vr.1 :: ar.1, ar.2)
    | ']' :: r2 => .ok ([vr.1], r2)
    | _ => .error .valueError

/-- Parse the comma-separated entries of a non-empty JSON object, up to
and including the closing brace. -/
def parseObjItems : Nat → List Char → Except PyErr (List (String × Json) × List Char)
  | 0, _ => .error .valueError
  | fuel + 1, cs =>
    match skipWs cs with
    | '"' :: rest =>
      ebind (parseStrChars rest) fun kr =>
      (match skipWs kr.2 with
       | ':' :: r2 =>
         ebind (parseValue fuel r2) fun vr =>
         (match skipWs vr.2 with
          | ',' :: r3 =>
            ebind (parseObjItems fuel r3) fun br =>
              .ok ((kr.1.asString, vr.1) :: br.1, br.2)
          | '\x7d' :: r3 => .ok ([(kr.1.asString, vr.1)], r3)
          | _ => .error .valueError)
       | _ => .error .valueError)
    | _ => .error .valueError

end

/-- `json.loads`: decode a complete JSON text or raise. -/
def jsonLoads (s : String) : Except PyErr Json :=
  ebind (parseValue (s.length + 1) s.toList) fun vr =>
  match skipWs vr.2 with
  | [] => .ok vr.1
  | _ => .error .valueError

/-! ### `_extract_sources_from_functions` (Dockerfile lines 371-395) -/

/-- Decode a call's `arguments` (lines 380-381, 386-388): a string is
`json.loads`-decoded, anything else is used as is. -/
def decodeArgs (args : Json) : Except PyErr Json :=
  match args with
  | .str s => jsonLoads s
  | v => .ok v

/-- `if 'sources' in args: sources.extend(self._parse_source_field(args['sources']))`
(lines 382-383, 389-390). -/
def argsSources (args : Json) : Except PyErr (List Json) :=
  ebind (pyIn "sources" args) fun hs =>
  if hs then ebind (getKey args "sources") fun v => .ok (parse_source_field v)
  else .ok []

/-- The loop over a list-shaped function payload (lines 376-383),
collecting until an exception. -/
def functionsLoop : List Json → List Json × Option PyErr
  | [] => ([], none)
  | func :: rest =>
    match (ebind (pyIn "function" func) fun hf =>
           if hf then
             ebind (getKey func "function") fun fv =>
             ebind (pyIn "arguments" fv) fun ha =>
             if ha then
               ebind (getKey fv "arguments") fun argsv =>
               ebind (decodeArgs argsv) fun args =>
               argsSources args
             else .ok []
           else .ok []) with
    | .ok srcs =>
      let (rs, e) := functionsLoop rest
      (srcs ++ rs, e)
    | .error e => ([], some e)

/-- `_extract_sources_from_functions` (lines 371-395).  Total: its
handler returns the sources collected before any exception. -/
def extract_sources_from_functions (function_data : Json) : List Json :=
  match function_data with
  | .arr funcs => (functionsLoop funcs).1
  | .obj kvs =>
    (match List.lookup "arguments" kvs with
     | some argsv =>
       (match ebind (decodeArgs argsv) argsSources with
        | .ok srcs => srcs
        | .error _ => [])
     | none => [])
  | _ => []

/-! ### `_deduplicate_sources` (Dockerfile lines 397-427) -/

/-- The deduplication key of one record (lines 405-416).  Reading a field
off a non-dict record raises `AttributeError` (the per-record handler then
keeps the record regardless).  Components are included only when truthy,
in the fixed order `url`, `title`, `collection_id`, `page`, each rendered
through an f-string with its label; with no components the key falls back
to `str(hash(str(source)))`. -/
def dedupKey (source : Json) : Except PyErr String :=
  match source with
  | .obj kvs =>
    let g := fun (k : String) => (List.lookup k kvs).getD Json.null
    let key_parts : List String :=
      (if (g "url").truthy then ["url:" ++ pyStr (g "url")] else []) ++
      (if (g "title").truthy then ["title:" ++ pyStr (g "title")] else []) ++
      (if (g "collection_id").truthy then ["collection:" ++ pyStr (g "collection_id")] else []) ++
      (if (g "page").truthy then ["page:" ++ pyStr (g "page")] else [])
    .ok (if key_parts.isEmpty then hashKey (pyStr source) else String.intercalate "|" key_parts)
  | _ => .error .attributeError

/-- The deduplication loop with its running `seen` set (modelled as the
list of keys added so far; only membership is used).  A record whose key
is non-empty and unseen is kept and its key recorded (lines 418-420); a
record whose key computation raises is kept without recording a key
(lines 422-425); every other record is dropped. -/
def dedupAux : List Json → List String → List Json
  | [], _ => []
  | source :: rest, seen =>
    match dedupKey source with
    | .ok key =>
      if key ≠ "" ∧ key ∉ seen then source :: dedupAux rest (key :: seen)
      else dedupAux rest seen
    | .error _ => source :: dedupAux rest seen

/-- `_deduplicate_sources` (lines 397-427). -/
def deduplicate_sources (sources : List Json) : List Json :=
  dedupAux sources []

/-! ### `_extract_sources` (Dockerfile lines 202-252) -/

/-- The six generic source field names (lines 212-215). -/
def sourceFields : List String :=
  ["citations", "references", "links", "source_documents", "source_links", "metadata"]

/-- `for field in fields: if field in v: acc.extend(self._parse_source_field(v[field]))`
(lines 218-220 on the top level, 227-229 on a choice's message). -/
def foldFieldsE (v : Json) (acc : List Json) : List String → Except PyErr (List Json)
  | [] => .ok acc
  | f :: rest =>
    ebind (pyIn f v) fun h =>
    ebind (if h then ebind (getKey v f) fun x => .ok (acc ++ parse_source_field x)
           else .ok acc) fun acc2 =>
    foldFieldsE v acc2 rest

/-- The body of one iteration over `choices` (lines 224-234): the six
field names on the choice's message, then function/tool call payloads.
(The `or` conditions short-circuit in Python; whether the second operand
raises depends only on the type of `choice`, identical to the first, so
evaluating both is equivalent.) -/
def choiceScan (choice : Json) (acc : List Json) : Except PyErr (List Json) :=
  ebind (pyIn "message" choice) fun hm =>
  ebind (if hm then
           ebind (getKey choice "message") fun message =>
           foldFieldsE message acc sourceFields
         else .ok acc) fun acc2 =>
  ebind (pyIn "function_call" choice) fun hf =>
  ebind (pyIn "tool_calls" choice) fun ht =>
  if hf || ht then
    ebind (dictGet choice "function_call" Json.null) fun fc =>
    ebind (dictGet choice "tool_calls" (Json.arr [])) fun tc =>
    .ok (acc2 ++ extract_sources_from_functions (pyOr fc tc))
  else .ok acc2

/-- `for choice in response_data['choices']` (line 224). -/
def choicesLoop (acc : List Json) : List Json → Except PyErr (List Json)
  | [] => .ok acc
  | choice :: rest => ebind (choiceScan choice acc) fun acc2 => choicesLoop acc2 rest

/-- The body of `_extract_sources` (lines 206-247) in raising form: the
four scan locations in source order, then deduplication.  The delegated
parsers are total (each catches its own exceptions); only operations of
this body itself can raise here. -/
def extract_sources_body (d : Json) : Except PyErr (List Json) :=
  ebind (pyIn "sources" d) fun hs =>
  ebind (if hs then ebind (getKey d "sources") fun v => .ok ([] ++ parse_openwebui_sources v)
         else .ok []) fun s1 =>
  ebind (foldFieldsE d s1 sourceFields) fun s2 =>
  ebind (pyIn "choices" d) fun hc =>
  ebind (if hc then
           ebind (getKey d "choices") fun v =>
           ebind (pyIter v) fun choices =>
           choicesLoop s2 choices
         else .ok s2) fun s3 =>
  ebind (pyIn "context" d) fun hctx =>
  ebind (if hctx then .ok true else pyIn "retrieved_docs" d) fun hrag =>
  ebind (if hrag then
           ebind (dictGet d "context" Json.null) fun c =>
           ebind (dictGet d "retrieved_docs" Json.null) fun r =>
           .ok (s3 ++ parse_source_field (pyOr c r))
         else .ok s3) fun s4 =>
  .ok (deduplicate_sources s4)

/-- `_extract_sources` (lines 202-252): one handler around the whole scan
— any exception escaping the body discards everything accumulated and
returns no sources. -/
def extract_sources (d : Json) : List Json :=
  match extract_sources_body d with
  | .ok l => l
  | .error _ => []

/-! ### `_extract_response` (Dockerfile lines 151-200) -/

/-- The content branch decision (lines 157-178) in raising form: first
match among the OpenAI-style `choices` shape, top-level `response`,
top-level `content` and top-level `message`; no match leaves the content
empty for the fallback. -/
def contentBranch (d : Json) : Except PyErr String :=
  ebind (pyIn "choices" d) fun hch =>
  ebind (if hch then ebind (getKey d "choices") fun v => .ok v.truthy else .ok false) fun b1 =>
  if b1 then
    ebind (getKey d "choices") fun chs =>
    ebind (getIdx chs 0) fun choice =>
    ebind (pyIn "message" choice) fun hm =>
    ebind (if hm then ebind (getKey choice "message") fun m => pyIn "content" m
           else .ok false) fun b2 =>
    if b2 then
      ebind (getKey choice "message") fun m =>
      ebind (getKey m "content") fun c =>
      stripJ c
    else
      ebind (pyIn "text" choice) fun ht =>
      if ht then ebind (getKey choice "text") fun t => stripJ t
      else .ok ""
  else
    ebind (pyIn "response" d) fun hr =>
    if hr then ebind (getKey d "response") fun r => stripJ r
    else
      ebind (pyIn "content" d) fun hco =>
      if hco then ebind (getKey d "content") fun c => stripJ c
      else
        ebind (pyIn "message" d) fun hme =>
        if hme then
          ebind (getKey d "message") fun m =>
          match m with
          | .str s => .ok (pyStrip s)
          | .obj kvs =>
            if (List.lookup "content" kvs).isSome then
              ebind (getKey m "content") fun c => stripJ c
            else .ok ""
          | _ => .ok ""
        else .ok ""

/-- The normalized result of `_extract_response`: content, sources, and
the raw document kept for diagnostics. -/
structure ExtractResult where
  content : String
  sources : List Json
  raw : Json

/-- The body of `_extract_response` (lines 153-192) in raising form:
content branch, then source extraction (total), then the
`if not content` fallback to `str(response_data).strip()`. -/
def extract_response_body (d : Json) : Except PyErr ExtractResult :=
  ebind (contentBranch d) fun content0 =>
  let sources := extract_sources d
  let content := if content0 = "" then pyStrip (pyStr d) else content0
  .ok ⟨content, sources, d⟩

/-- `_extract_response` (lines 151-200): the outer handler converts any
exception into the fixed error content with no sources, keeping the raw
document. -/
def extract_response (d : Json) : ExtractResult :=
  match extract_response_body d with
  | .ok r => r
  | .error _ => ⟨"[ERROR: Failed to parse API response]", [], d⟩

/-- Does a document match one of the recognized content shapes of lines
157-178: a truthy `choices` field, or a top-level `response`, `content`
or `message` field (on a dict document; no other document matches a
shape)? -/
def recognizedShape (d : Json) : Bool :=
  match d with
  | .obj kvs =>
    ((List.lookup "choices" kvs).getD Json.null).truthy ||
    (List.lookup "response" kvs).isSome ||
    (List.lookup "content" kvs).isSome ||
    (List.lookup "message" kvs).isSome
  | _ => false

/-- Convenience accessor for stating facts about records: the value of a
field of a record (or `None`). -/
def recGet (r : Json) (k : String) : Json :=
  match r with
  | .obj kvs => (List.lookup k kvs).getD Json.null
  | _ => Json.null

/-! ### Helper lemmas -/

/-- The deduplication loop only ever keeps elements of its input, in
input order. -/
theorem dedupAux_sublist (l : List Json) : ∀ seen, List.Sublist (dedupAux l seen) l := by
  induction l with
  | nil => intro seen; simp [dedupAux]
  | cons s rest ih =>
    intro seen
    simp only [dedupAux]
    cases h : dedupKey s with
    | ok key =>
      by_cases hkeep : key ≠ "" ∧ key ∉ seen
      · simp only [if_pos hkeep]
        exact List.Sublist.cons₂ _ (ih _)
      · simp only [if_neg hkeep]
        exact List.Sublist.cons _ (ih _)
    | error e => exact List.Sublist.cons₂ _ (ih _)

/-- Running the deduplication loop on its own output (with the same
starting `seen` set) changes nothing: every kept record either has a key
that was then added to `seen` and is unique among the survivors, or its
key computation raises and it is kept unconditionally again. -/
theorem dedupAux_idem (l : List Json) :
    ∀ seen, dedupAux (dedupAux l seen) seen = dedupAux l seen := by
  induction l with
  | nil => intro seen; simp [dedupAux]
  | cons s rest ih =>
    intro seen
    simp only [dedupAux]
    cases h : dedupKey s with
    | ok key =>
      by_cases hkeep : key ≠ "" ∧ key ∉ seen
      · simp only [if_pos hkeep]
        simp only [dedupAux, h, if_pos hkeep]
        exact congrArg _ (ih (key :: seen))
      · simp only [if_neg hkeep]
        exact ih seen
    | error e =>
      simp only [dedupAux, h]
      exact congrArg _ (ih seen)

/-- A member on which the predicate fails survives `dropWhile`, so the
result is not empty. -/
theorem dropWhile_ne_nil_of_mem {p : Char → Bool} {l : List Char} {c : Char}
    (hc : c ∈ l) (hpc : p c = false) : l.dropWhile p ≠ [] := by
  intro h
  have := (List.dropWhile_eq_nil_iff.mp h) c hc
  rw [hpc] at this
  exact Bool.noConfusion this

/-- A member on which the predicate fails is still a member after
`dropWhile`. -/
theorem mem_dropWhile_of_mem {p : Char → Bool} {l : List Char} {c : Char}
    (hc : c ∈ l) (hpc : p c = false) : c ∈ l.dropWhile p := by
  have hsplit := List.takeWhile_append_dropWhile (p := p) (l := l)
  rw [← hsplit] at hc
  rcases List.mem_append.mp hc with h | h
  · exact absurd (List.mem_takeWhile_imp h) (by simp [hpc])
  · exact h

/-- Stripping cannot empty a character list that contains a
non-whitespace character. -/
theorem stripChars_ne_nil {l : List Char} {c : Char} (hc : c ∈ l)
    (hw : c.isWhitespace = false) : stripChars l ≠ [] := by
  unfold stripChars
  intro h
  have h1 : (l.dropWhile Char.isWhitespace).reverse.dropWhile Char.isWhitespace = [] := by
    have := congrArg List.reverse h
    simpa using this
  have hc1 : c ∈ (l.dropWhile Char.isWhitespace).reverse :=
    List.mem_reverse.mpr (mem_dropWhile_of_mem hc hw)
  exact dropWhile_ne_nil_of_mem hc1 hw h1

/-- Python `str` of a dict starts with an opening brace, so stripping it
never yields the empty string. -/
theorem pyStrip_pyStr_obj_ne (kvs : List (String × Json)) :
    pyStrip (pyStr (Json.obj kvs)) ≠ "" := by
  have hmem : '\x7b' ∈ (pyStr (Json.obj kvs)).toList := by
    show '\x7b' ∈ (("\x7b" ++ pyReprKVs kvs) ++ "\x7d").data
    rw [String.data_append, String.data_append]
    exact List.mem_append.mpr (Or.inl (List.mem_append.mpr (Or.inl (by simp [String.data]))))
  intro h
  exact stripChars_ne_nil hmem (by decide) (congrArg String.data h)

/-! ### Claims -/

/-- C1: content extraction never propagates an exception to the caller —
whenever an exception occurs during extraction (the raising body of
`_extract_response` produces an error), the result has content equal to
the fixed string `"[ERROR: Failed to parse API response]"` and an empty
sources list, with the raw document still attached. -/
theorem extract_response_error_shape (d : Json) (e : PyErr)
    (h : extract_response_body d = .error e) :
    extract_response d = ⟨"[ERROR: Failed to parse API response]", [], d⟩ := by
  simp [extract_response, h]

/-- Witness for C1 at a concrete input: a numeric `response` field makes
`strip()` raise `AttributeError`, and the caller sees the fixed error
result. -/
theorem extract_response_error_shape_witness :
    extract_response_body (Json.obj [("response", Json.num 5)]) = .error .attributeError ∧
    extract_response (Json.obj [("response", Json.num 5)]) =
      ⟨"[ERROR: Failed to parse API response]", [], Json.obj [("response", Json.num 5)]⟩ :=
  ⟨rfl, extract_response_error_shape _ .attributeError rfl⟩

/-- C3: the deduplicator derives each record's key from its `url`,
`title`, `collection_id`, `page` fields in that order, including only
non-empty (truthy) components joined by the `"|"` separator with their
labels; survivors keep first-seen order (in particular, A(url=x),
B(url=y), C(url=x) yield [A, B], and in general the output is a sublist
of the input); a record whose four key fields are all empty falls back to
a structural hash of the whole record as its key. -/
theorem dedup_key_and_order (l : List Json) (kvs : List (String × Json)) (u t c p : String)
    (h1 : ((List.lookup "url" kvs).getD Json.null).truthy = false)
    (h2 : ((List.lookup "title" kvs).getD Json.null).truthy = false)
    (h3 : ((List.lookup "collection_id" kvs).getD Json.null).truthy = false)
    (h4 : ((List.lookup "page" kvs).getD Json.null).truthy = false)
    (hu : u ≠ "") (ht : t ≠ "") (hc : c ≠ "") (hp : p ≠ "") :
    List.Sublist (deduplicate_sources l) l ∧
    deduplicate_sources [Json.obj [("url", Json.str "x")], Json.obj [("url", Json.str "y")],
        Json.obj [("url", Json.str "x")]] =
      [Json.obj [("url", Json.str "x")], Json.obj [("url", Json.str "y")]] ∧
    dedupKey (Json.obj kvs) = .ok (hashKey (pyStr (Json.obj kvs))) ∧
    dedupKey (Json.obj [("url", Json.str u), ("title", Json.str t),
        ("collection_id", Json.str c), ("page", Json.str p)]) =
      .ok (String.intercalate "|" ["url:" ++ u, "title:" ++ t, "collection:" ++ c,
        "page:" ++ p]) := by
  refine ⟨dedupAux_sublist l [], rfl, ?_, ?_⟩
  · simp [dedupKey, h1, h2, h3, h4]
  · simp [dedupKey, List.lookup, Json.truthy, hu, ht, hc, hp, pyStr]

/-- Witness for C3 at concrete inputs. -/
theorem dedup_key_and_order_witness :
    List.Sublist (deduplicate_sources [Json.null]) [Json.null] ∧
    deduplicate_sources [Json.obj [("url", Json.str "x")], Json.obj [("url", Json.str "y")],
        Json.obj [("url", Json.str "x")]] =
      [Json.obj [("url", Json.str "x")], Json.obj [("url", Json.str "y")]] ∧
    dedupKey (Json.obj [("snippet", Json.str "s")]) =
      .ok (hashKey (pyStr (Json.obj [("snippet", Json.str "s")]))) ∧
    dedupKey (Json.obj [("url", Json.str "a"), ("title", Json.str "b"),
        ("collection_id", Json.str "c"), ("page", Json.str "d")]) =
      .ok (String.intercalate "|" ["url:" ++ "a", "title:" ++ "b", "collection:" ++ "c",
        "page:" ++ "d"]) :=
  dedup_key_and_order [Json.null] [("snippet", Json.str "s")] "a" "b" "c" "d"
    rfl rfl rfl rfl (by decide) (by decide) (by decide) (by decide)

/-- C4: deduplication is idempotent — applying the deduplicator to its
own output returns that output unchanged. -/
theorem deduplicate_sources_idempotent (l : List Json) :
    deduplicate_sources (deduplicate_sources l) = deduplicate_sources l :=
  dedupAux_idem l []

/-- C5: pairing document index `i` with metadata and distance never
indexes out of bounds whatever the three list lengths are: the selected
metadata is the bounds-checked element with default empty object, the
selected distance the bounds-checked element with default 0 (both equal
to total `getD` lookups), and on the ragged example (3 documents, 2
metadata entries, 1 distance) the parser produces 3 records whose
metadata and score fields show the defaults. -/
theorem openwebui_ragged_safe (metadata_list distances : List Json) (i : Nat) :
    selMeta metadata_list i = metadata_list.getD i (Json.obj []) ∧
    selDist distances i = distances.getD i (Json.num 0) ∧
    (parse_openwebui_sources (Json.arr [Json.obj
        [("document", Json.arr [Json.str "d1", Json.str "d2", Json.str "d3"]),
         ("metadata", Json.arr [Json.obj [("title", Json.str "t1")],
            Json.obj [("title", Json.str "t2")]]),
         ("distances", Json.arr [Json.num (1/2)])]])).map (fun r => recGet r "metadata") =
      [Json.obj [("title", Json.str "t1")], Json.obj [("title", Json.str "t2")],
       Json.obj []] ∧
    (parse_openwebui_sources (Json.arr [Json.obj
        [("document", Json.arr [Json.str "d1", Json.str "d2", Json.str "d3"]),
         ("metadata", Json.arr [Json.obj [("title", Json.str "t1")],
            Json.obj [("title", Json.str "t2")]]),
         ("distances", Json.arr [Json.num (1/2)])]])).map (fun r => recGet r "score") =
      [Json.num (1/2), Json.num 0, Json.num 0] := by
  refine ⟨?_, ?_, rfl, rfl⟩
  · unfold selMeta
    split
    · rename_i h
      rw [List.get_eq_getElem]
      exact (List.getD_eq_getElem metadata_list (Json.obj []) h).symm
    · rename_i h
      exact (List.getD_eq_default metadata_list (Json.obj []) (le_of_not_lt h)).symm
  · unfold selDist
    split
    · rename_i h
      rw [List.get_eq_getElem]
      exact (List.getD_eq_getElem distances (Json.num 0) h).symm
    · rename_i h
      exact (List.getD_eq_default distances (Json.num 0) (le_of_not_lt h)).symm

/-- Counterexample to C6 as stated: a distance that is present and equal
to 0 is falsy, so the code computes score 0, not `1 - 0 = 1` as the
claim's universal statement demands for a present distance. -/
theorem openwebui_score_zero_distance :
    (parse_openwebui_sources (Json.arr [Json.obj
        [("document", Json.arr [Json.str "doc"]),
         ("distances", Json.arr [Json.num 0])]])).map (fun r => recGet r "score") =
      [Json.num 0] ∧
    Json.num 0 ≠ Json.num 1 := by
  refine ⟨rfl, ?_⟩
  intro h
  exact absurd (Json.num.inj h) (by norm_num)

/-- C6 amended: for a document paired with a present truthy (non-zero)
numeric distance `q` the computed score is `1 - q` (e.g. distance 1/5
gives score 4/5); for a present distance of 0 and for a document with no
distance present (the default 0 is selected) the score is 0. -/
theorem openwebui_score (q : Rat) (hq : q ≠ 0) :
    scoreOf (Json.num q) = .ok (Json.num (1 - q)) ∧
    scoreOf (Json.num 0) = .ok (Json.num 0) ∧
    scoreOf (selDist [] 0) = .ok (Json.num 0) ∧
    (parse_openwebui_sources (Json.arr [Json.obj
        [("document", Json.arr [Json.str "doc"]),
         ("distances", Json.arr [Json.num (1/5)])]])).map (fun r => recGet r "score") =
      [Json.num (4/5)] := by
  refine ⟨?_, rfl, rfl, rfl⟩
  simp [scoreOf, Json.truthy, hq]

/-- Witness for C6 amended at distance 1/5. -/
theorem openwebui_score_witness :
    scoreOf (Json.num (1/5)) = .ok (Json.num (1 - 1/5)) ∧
    scoreOf (Json.num 0) = .ok (Json.num 0) ∧
    scoreOf (selDist [] 0) = .ok (Json.num 0) ∧
    (parse_openwebui_sources (Json.arr [Json.obj
        [("document", Json.arr [Json.str "doc"]),
         ("distances", Json.arr [Json.num (1/5)])]])).map (fun r => recGet r "score") =
      [Json.num (4/5)] :=
  openwebui_score (1/5) (by norm_num)

/-- Counterexample to C7 as stated: with a `citations` field holding one
valid source and a non-iterable `choices` value, iterating `choices`
raises inside the scanner body itself; the scanner's single outer handler
then returns an empty list, discarding the citation record that had
already been accumulated — rather than returning the records from the
other locations as the claim states. -/
theorem scan_body_failure_discards_all :
    extract_sources (Json.obj [("citations", Json.arr [Json.obj [("url", Json.str "http://x")]]),
        ("choices", Json.num 5)]) = [] ∧
    parse_source_field (Json.arr [Json.obj [("url", Json.str "http://x")]]) =
      [Json.obj [("title", Json.str ""), ("url", Json.str "http://x"),
        ("snippet", Json.str ""), ("score", Json.num 0)]] :=
  ⟨rfl, rfl⟩

/-- C7 amended: failures inside the delegated parsers are contained and
the other locations still contribute — the OpenWebUI parser and the
generic field parser are total functions, and for any document holding a
`sources` and a `citations` field the scan always returns the
deduplicated concatenation of their outputs, whatever the two values are;
but an exception raised in the scanner body itself (such as iterating a
non-iterable `choices`) is caught only by the scanner's single outer
handler, which discards all accumulated records and returns the empty
list. -/
theorem sub_parser_failures_contained (v c : Json) :
    extract_sources (Json.obj [("sources", v), ("citations", c)]) =
      deduplicate_sources (parse_openwebui_sources v ++ parse_source_field c) := rfl

/-- C8: the generic field-shape parser retains an object-shaped record
only when its resolved `url` or its `title` is truthy (a record with only
a snippet is dropped — both in general and on the concrete snippet-only
item), whereas the OpenWebUI parser retains a document record when any of
title, snippet, or url is non-empty (a document whose only content is its
snippet text is kept, with that snippet). -/
theorem admission_rules (kvs : List (String × Json)) (rest : List Json)
    (h1 : (resolvedUrl kvs).truthy = false)
    (h2 : ((List.lookup "title" kvs).getD (Json.str "")).truthy = false) :
    parseItems (Json.obj kvs :: rest) = parseItems rest ∧
    parse_source_field (Json.arr [Json.obj [("snippet", Json.str "only text")]]) = [] ∧
    (parse_openwebui_sources (Json.arr [Json.obj
        [("document", Json.arr [Json.str "only text"])]])).map (fun r => recGet r "snippet") =
      [Json.str "only text"] := by
  refine ⟨?_, rfl, rfl⟩
  have hkeep : keepGeneric (genericRecordOfDict kvs) = false := by
    have : keepGeneric (genericRecordOfDict kvs) =
        ((resolvedUrl kvs).truthy || ((List.lookup "title" kvs).getD (Json.str "")).truthy) := rfl
    rw [this, h1, h2]
    rfl
  simp [parseItems, hkeep]

/-- Witness for C8 on a snippet-only object item. -/
theorem admission_rules_witness :
    parseItems (Json.obj [("snippet", Json.str "s")] :: []) = parseItems [] ∧
    parse_source_field (Json.arr [Json.obj [("snippet", Json.str "only text")]]) = [] ∧
    (parse_openwebui_sources (Json.arr [Json.obj
        [("document", Json.arr [Json.str "only text"])]])).map (fun r => recGet r "snippet") =
      [Json.str "only text"] :=
  admission_rules [("snippet", Json.str "s")] [] rfl rfl

/-- Counterexample to C9 as stated: with both `context` and
`retrieved_docs` present but `context` falsy (an empty list), the code
evaluates `response_data.get('context') or response_data.get('retrieved_docs')`
and hands `retrieved_docs` to the generic parser — although the claim
says the first present field (`context`, which parses to no sources)
wins and `retrieved_docs` is consulted only when `context` is absent. -/
theorem context_falsy_uses_retrieved_docs :
    extract_sources (Json.obj [("context", Json.arr []),
        ("retrieved_docs", Json.arr [Json.obj [("url", Json.str "http://x")]])]) =
      [Json.obj [("title", Json.str ""), ("url", Json.str "http://x"),
        ("snippet", Json.str ""), ("score", Json.num 0)]] ∧
    parse_source_field (Json.arr []) = [] :=
  ⟨rfl, rfl⟩

/-- C9 amended: when both `context` and `retrieved_docs` are present at
top level, the value handed to the generic parser is the Python `or` of
the two — `context` when it is truthy, else `retrieved_docs`; so
`retrieved_docs` is consulted whenever `context` is absent or falsy. -/
theorem context_or_retrieved_docs (ctx rdocs : Json) :
    extract_sources (Json.obj [("context", ctx), ("retrieved_docs", rdocs)]) =
      deduplicate_sources (parse_source_field (pyOr ctx rdocs)) := rfl

/-- C2: for a response whose `choices` field is a non-empty list and
whose first choice holds a message object with a string `content` field
non-empty after trimming, the extracted content equals that string
trimmed; if the first choice instead (no `message` key) has a string
`text` field non-empty after trimming, its trimmed value is used. -/
theorem extract_content_first_choice (kvs ckvs : List (String × Json)) (rest : List Json) :
    (∀ (mkvs : List (String × Json)) (s : String),
      List.lookup "choices" kvs = some (.arr (.obj ckvs :: rest)) →
      List.lookup "message" ckvs = some (.obj mkvs) →
      List.lookup "content" mkvs = some (.str s) →
      pyStrip s ≠ "" →
      (extract_response (.obj kvs)).content = pyStrip s) ∧
    (∀ t : String,
      List.lookup "choices" kvs = some (.arr (.obj ckvs :: rest)) →
      List.lookup "message" ckvs = none →
      List.lookup "text" ckvs = some (.str t) →
      pyStrip t ≠ "" →
      (extract_response (.obj kvs)).content = pyStrip t) := by
  constructor
  · intro mkvs s hch hm hctn hne
    have h1 : contentBranch (Json.obj kvs) = .ok (pyStrip s) := by
      simp [contentBranch, pyIn, getKey, getIdx, hch, hm, hctn, Json.truthy, stripJ]
    simp [extract_response, extract_response_body, h1, hne]
  · intro t hch hm htxt hne
    have h1 : contentBranch (Json.obj kvs) = .ok (pyStrip t) := by
      simp [contentBranch, pyIn, getKey, getIdx, hch, hm, htxt, Json.truthy, stripJ]
    simp [extract_response, extract_response_body, h1, hne]

/-- Witness for C2 on concrete documents for both branches. -/
theorem extract_content_first_choice_witness :
    (extract_response (Json.obj [("choices", Json.arr [Json.obj
        [("message", Json.obj [("content", Json.str " hi ")])]])])).content = pyStrip " hi " ∧
    (extract_response (Json.obj [("choices", Json.arr [Json.obj
        [("text", Json.str " there ")]])])).content = pyStrip " there " :=
  ⟨(extract_content_first_choice [("choices", Json.arr [Json.obj
        [("message", Json.obj [("content", Json.str " hi ")])]])]
      [("message", Json.obj [("content", Json.str " hi ")])] []).1
      [("content", Json.str " hi ")] " hi " rfl rfl rfl (by decide),
   (extract_content_first_choice [("choices", Json.arr [Json.obj
        [("text", Json.str " there ")]])] [("text", Json.str " there ")] []).2
      " there " rfl rfl rfl (by decide)⟩

/-- C10: a response that matches one of the recognized content shapes but
whose branch-extracted content is empty after trimming does not yield the
empty string: the extractor falls back to the stringified raw document
(trimmed) as content, exactly as for unrecognized shapes, and for a
recognized (dict) document that fallback is never empty. -/
theorem empty_content_fallback (d : Json)
    (hshape : recognizedShape d = true)
    (hok : contentBranch d = .ok "") :
    extract_response d = ⟨pyStrip (pyStr d), extract_sources d, d⟩ ∧
    (extract_response d).content ≠ "" := by
  have h1 : extract_response d = ⟨pyStrip (pyStr d), extract_sources d, d⟩ := by
    simp [extract_response, extract_response_body, hok]
  refine ⟨h1, ?_⟩
  rw [h1]
  cases d with
  | obj kvs => exact pyStrip_pyStr_obj_ne kvs
  | null => simp [recognizedShape] at hshape
  | bool b => simp [recognizedShape] at hshape
  | num q => simp [recognizedShape] at hshape
  | str s => simp [recognizedShape] at hshape
  | arr xs => simp [recognizedShape] at hshape

/-- Witness for C10 on the whitespace-only `response` document. -/
theorem empty_content_fallback_witness :
    extract_response (Json.obj [("response", Json.str "   ")]) =
      ⟨pyStrip (pyStr (Json.obj [("response", Json.str "   ")])),
       extract_sources (Json.obj [("response", Json.str "   ")]),
       Json.obj [("response", Json.str "   ")]⟩ ∧
    (extract_response (Json.obj [("response", Json.str "   ")])).content ≠ "" :=
  empty_content_fallback (Json.obj [("response", Json.str "   ")]) rfl rfl

end WebUI
